import Mathlib

/-!
Shallow embedding of `scripts/auto_init.py` from the carver-feeds-skill
repository, together with proofs of the specified properties of its
provisioning routine.

Modelling conventions:
* An external subprocess invocation is modelled by its observable outcome:
  `none` stands for a raised exception (including a timeout), `some r` for a
  completed process with exit status, captured stdout and captured stderr.
* The filesystem facts the script consults (existence of the venv directory,
  contents of the working-directory `.env` file) and the outcomes of the
  subprocesses it spawns are collected in a `World` record; the script is a
  pure function of that record.
* `print` calls are modelled by the list of emitted lines: a Python
  `print` whose argument starts with a newline emits an empty line followed
  by the rest, and multi-line passthrough of captured output is kept as one
  emitted element.  Where the script interpolates a caught exception into a
  diagnostic message, the unobservable exception text is rendered as the
  fixed placeholder `<exception>`.
* Filesystem side effects and subprocess spawns are additionally recorded in
  an `Effect` trace, so that frame and idempotence properties can be stated.
* Only the POSIX branch of `get_venv_python` is modelled (the claims do not
  concern the `win32` branch).
-/

/-- Observable outcome of a completed subprocess: exit status and captured
output streams (mirrors the fields of the Python `CompletedProcess` value that
the script reads). -/
structure SubprocResult where
  returncode : Int
  stdout : String
  stderr : String
deriving DecidableEq

/-- Outcome of attempting to run a subprocess: `none` models a raised
exception (including `TimeoutExpired`), `some r` a completed process. -/
abbrev ProbeResult := Option SubprocResult

/-- Helper for the Python substring operator `in`: does `pat` occur as a
contiguous run inside the character list? -/
def infixSearch (pat : List Char) : List Char → Bool
  | [] => pat.isEmpty
  | c :: cs => pat.isPrefixOf (c :: cs) || infixSearch pat cs

/-- Containment test of the Python expression `pat in s` on strings. -/
def strContains (s pat : String) : Bool :=
  infixSearch pat.data s.data

/-- Model of the Python call `s.strip()`: remove leading and trailing whitespace. -/
def pyStrip (s : String) : String :=
  String.mk (((s.data.dropWhile Char.isWhitespace).reverse.dropWhile Char.isWhitespace).reverse)

/-- Model of the Python call `s.startswith(pre)`. -/
def pyStartsWith (s pre : String) : Bool :=
  pre.data.isPrefixOf s.data

/-- Version acceptance condition of `find_compatible_python`:
`any(f"Python 3.{minor}" in version_output for minor in [10, 11, 12])`. -/
def versionAccepted (versionOutput : String) : Bool :=
  [10, 11, 12].any (fun minor => strContains versionOutput ("Python 3." ++ toString minor))

/-- Candidate interpreter list of `find_compatible_python`, in source order. -/
def candidates : List String :=
  ["python3.12", "python3.11", "python3.10", "python3",
   "/usr/bin/python3.12", "/usr/bin/python3.11", "/usr/bin/python3.10",
   "/usr/local/bin/python3.12", "/usr/local/bin/python3.11", "/usr/local/bin/python3.10",
   "/opt/homebrew/bin/python3.12", "/opt/homebrew/bin/python3.11", "/opt/homebrew/bin/python3.10"]

/-- Loop body of `find_compatible_python` over an explicit list of candidates
paired with the outcome of running `[candidate, "--version"]`.  A candidate
whose probe raised (`none`) is skipped; a candidate with a zero exit whose
stripped stdout contains an accepted version string is returned together with
that stripped stdout; every other candidate is skipped.  An exhausted list
yields `none` (rendering the `(None, None)` of the source). -/
def find_compatible_python : List (String × ProbeResult) → Option (String × String)
  | [] => none
  | (candidate, probe) :: rest =>
    match probe with
    | none => find_compatible_python rest
    | some result =>
      if result.returncode = 0 then
        let versionOutput := pyStrip result.stdout
        if versionAccepted versionOutput then some (candidate, versionOutput)
        else find_compatible_python rest
      else find_compatible_python rest

/-- Combined acceptance test for one candidate probe outcome, factored from
the loop body of `find_compatible_python`. -/
def acceptable : ProbeResult → Bool
  | none => false
  | some r => if r.returncode = 0 then versionAccepted (pyStrip r.stdout) else false

/-- Path of the interpreter inside the venv (`get_venv_python`, POSIX
branch). -/
def get_venv_python (venvPath : String) : String :=
  venvPath ++ "/bin/python"

/-- Everything after the first `=` of a line, as computed by the Python
expression `line.split("=", 1)[1]`.  Only invoked on lines that contain an `=`. -/
def afterFirstEq (line : String) : String :=
  String.mk ((line.data.dropWhile (fun c => c != '=')).drop 1)

/-- Loop of `check_env_file` over the lines of the `.env` file: the first
line whose stripped text starts with `CARVER_API_KEY=` and whose value after
the first `=` is, once stripped, non-empty and different from the
placeholder, yields `(true, some key)`; otherwise the scan continues. -/
def checkLines : List String → Bool × Option String
  | [] => (false, none)
  | line :: rest =>
    if pyStartsWith (pyStrip line) "CARVER_API_KEY=" then
      let key := pyStrip (afterFirstEq line)
      if key != "" && key != "your_api_key_here" then (true, some key)
      else checkLines rest
    else checkLines rest

/-- Acceptance function for a single `.env` line, factored from the loop
body of `check_env_file`: `some key` when the line contributes a valid key,
`none` when the scan would skip it. -/
def lineKey (line : String) : Option String :=
  if pyStartsWith (pyStrip line) "CARVER_API_KEY=" then
    let key := pyStrip (afterFirstEq line)
    if key != "" && key != "your_api_key_here" then some key else none
  else none

/-- Result of `check_env_file` given the contents of `cwd/.env` (`none` when
the file does not exist, `some lines` its lines otherwise). -/
def check_env_file (envFile : Option (List String)) : Bool × Option String :=
  match envFile with
  | none => (false, none)
  | some lines => checkLines lines

/-- Result of `is_sdk_installed` given the outcome of running
`python -c "import carver_feeds"` in the venv. -/
def is_sdk_installed (probe : ProbeResult) : Bool :=
  match probe with
  | none => false
  | some r => r.returncode == 0

/-- Result and emitted lines of `upgrade_pip`, given whether the
`pip install --upgrade pip` call completed without exception. -/
def upgrade_pip (ok : Bool) : Bool × List String :=
  if ok then (true, ["Upgrading pip...", "✓ pip upgraded"])
  else (false, ["Upgrading pip...", "WARNING: Could not upgrade pip: <exception>"])

/-- Result and emitted lines of `install_sdk`: `Except.error 1` models the
`sys.exit(1)` taken on installation failure. -/
def install_sdk (ok : Bool) : Except Nat Unit × List String :=
  if ok then (Except.ok (), ["Installing carver-feeds-sdk...", "✓ SDK installed"])
  else (Except.error 1, ["Installing carver-feeds-sdk...", "ERROR: Failed to install SDK: <exception>"])

/-- Result of `ensure_python_dotenv` given the outcome of the
`import dotenv` probe and whether the fallback `pip install python-dotenv`
call completes: `false` is only ever reported, never fatal. -/
def ensure_python_dotenv (probe : ProbeResult) (installOk : Bool) : Bool :=
  match probe with
  | none => false
  | some r => if r.returncode == 0 then true else installOk

/-- Result and emitted lines of `test_sdk_connection` given the outcome of
the verification subprocess: success exactly when the subprocess completed,
exited zero and printed the `SUCCESS` marker. -/
def test_sdk_connection (verify : ProbeResult) : Bool × List String :=
  match verify with
  | some result =>
    if result.returncode = 0 && strContains result.stdout "SUCCESS" then
      (true, ["✓ SDK connection verified"])
    else
      (false, ["ERROR: SDK connection failed"] ++
        (if result.stderr != "" then ["  " ++ result.stderr] else []) ++
        (if result.stdout != "" && strContains result.stdout "ERROR" then
          ["  " ++ result.stdout] else []))
  | none => (false, ["ERROR: Failed to test SDK connection: <exception>"])

/-- Sixty equals signs, the `"="*60` of `prompt_for_api_key`. -/
def sixtyEq : String :=
  String.mk (List.replicate 60 (Char.ofNat 61))

/-- Lines emitted by `prompt_for_api_key` before it exits with status 2; the
final two are the structured marker token and the working-directory line. -/
def prompt_for_api_key (cwd : String) : List String :=
  ["", sixtyEq,
   "CARVER API KEY REQUIRED",
   sixtyEq,
   "", "The Carver Feeds SDK requires an API key to function.",
   "", "To get your API key:",
   "1. Visit: https://app.carveragents.ai",
   "2. Sign in or create an account",
   "3. Copy your API key",
   "", "Please provide your Carver API key to continue.",
   "", "(The key will be saved to " ++ cwd ++ "/.env)",
   sixtyEq,
   "", "API_KEY_REQUIRED",
   "CWD=" ++ cwd]

/-- Side effects of the provisioner that the claims quantify over:
interpreter probes, venv construction, package-management calls, reads and
writes of the credential file, and the verification run.  `writeEnvFile` is
the operation the frame property rules out. -/
inductive Effect where
  | probeVersion (candidate : String)
  | createVenv (venvPath : String)
  | upgradePipCall
  | probeSdkImport
  | installSdkCall
  | probeDotenvImport
  | installDotenvCall
  | statEnvFile (path : String)
  | readEnvFile (path : String)
  | writeEnvFile (path : String) (contents : List String)
  | runVerifyScript
deriving DecidableEq

/-- Probes actually performed by the loop of `find_compatible_python`: every
candidate up to and including the first acceptable one. -/
def probeTrace : List (String × ProbeResult) → List Effect
  | [] => []
  | (candidate, probe) :: rest =>
    Effect.probeVersion candidate ::
      (if acceptable probe then [] else probeTrace rest)

/-- Environment facts and subprocess outcomes that determine one run of the
provisioner. -/
structure World where
  skillDir : String
  userCwd : String
  venvExists : Bool
  probe : String → ProbeResult
  venvCreateOk : Bool
  pipUpgradeOk : Bool
  sdkImport : ProbeResult
  sdkInstallOk : Bool
  dotenvImport : ProbeResult
  dotenvInstallOk : Bool
  envFile : Option (List String)
  verifyResult : ProbeResult

/-- Terminal state of `main`: which `sys.exit` was reached. -/
inductive MainOutcome where
  | success (venvPython : String) (cwd : String)
  | needCredential (cwd : String)
  | fatalNoPython
  | fatalVenvCreate
  | fatalSdkInstall
  | fatalVerify
deriving DecidableEq

/-- Process exit status of each terminal state. -/
def exitCode : MainOutcome → Nat
  | .success _ _ => 0
  | .needCredential _ => 2
  | .fatalNoPython => 1
  | .fatalVenvCreate => 1
  | .fatalSdkInstall => 1
  | .fatalVerify => 1

/-- Result of `ensure_venv`: reuse or creation of the venv interpreter, or
one of its two `sys.exit(1)` paths. -/
inductive VenvResult where
  | ok (pythonExe : String)
  | noPython
  | createFailed
deriving DecidableEq

/-- Embedding of `ensure_venv`: reuse an existing venv unchanged, otherwise
search for a compatible interpreter and construct the venv with it. -/
def ensure_venv (w : World) : VenvResult × List String × List Effect :=
  let venvPath := w.skillDir ++ "/.venv"
  if w.venvExists then
    (VenvResult.ok (get_venv_python venvPath), [], [])
  else
    let probes := candidates.map (fun c => (c, w.probe c))
    match find_compatible_python probes with
    | none =>
      (VenvResult.noPython,
       ["Creating virtual environment...",
        "", "ERROR: Python 3.10, 3.11, or 3.12 is required but not found.",
        "", "The carver-feeds-sdk requires Python 3.10+.",
        "", "Please install a compatible Python version:",
        "  - macOS: brew install python@3.12",
        "  - Ubuntu: sudo apt install python3.12",
        "  - Windows: Download from python.org"],
       probeTrace probes)
    | some (_, version) =>
      if w.venvCreateOk then
        (VenvResult.ok (get_venv_python venvPath),
         ["Creating virtual environment...",
          "✓ Found compatible Python: " ++ version,
          "✓ Virtual environment created"],
         probeTrace probes ++ [Effect.createVenv venvPath])
      else
        (VenvResult.createFailed,
         ["Creating virtual environment...",
          "✓ Found compatible Python: " ++ version,
          "ERROR: Failed to create virtual environment: <exception>"],
         probeTrace probes ++ [Effect.createVenv venvPath])

/-- Actions of `ensure_python_dotenv`: the import probe, then the install
call only when the probe completed with a non-zero status. -/
def dotenvActions (probe : ProbeResult) : List Effect :=
  match probe with
  | none => [Effect.probeDotenvImport]
  | some r =>
    if r.returncode == 0 then [Effect.probeDotenvImport]
    else [Effect.probeDotenvImport, Effect.installDotenvCall]

/-- Actions of step 5 of `main`: an existence check of `cwd/.env`, and a
read of its lines only when it exists. -/
def envFileActions (cwd : String) (envFile : Option (List String)) : List Effect :=
  match envFile with
  | none => [Effect.statEnvFile (cwd ++ "/.env")]
  | some _ => [Effect.statEnvFile (cwd ++ "/.env"), Effect.readEnvFile (cwd ++ "/.env")]

/-- Full observable result of one run of `main`. -/
structure RunResult where
  outcome : MainOutcome
  stdout : List String
  actions : List Effect
deriving DecidableEq

/-- Steps 4 to 6 of `main` (dotenv helper, credential check, verification,
final report), shared by the two ways step 3 can succeed.  `out` and `acts`
are the lines and effects accumulated by steps 1 to 3. -/
def mainAfterInstall (w : World) (pythonExe : String)
    (out : List String) (acts : List Effect) : RunResult :=
  let acts5 := acts ++ dotenvActions w.dotenvImport ++
    envFileActions w.userCwd w.envFile
  if (check_env_file w.envFile).1 then
    let t := test_sdk_connection w.verifyResult
    if t.1 then
      ⟨MainOutcome.success pythonExe w.userCwd,
       out ++ t.2 ++ ["", "VENV_PYTHON=" ++ pythonExe, "CWD=" ++ w.userCwd],
       acts5 ++ [Effect.runVerifyScript]⟩
    else
      ⟨MainOutcome.fatalVerify,
       out ++ t.2 ++
        ["", "ERROR: SDK is installed but cannot connect to API.",
         "Please check your API key and network connection.",
         "Looking for .env in: " ++ w.userCwd],
       acts5 ++ [Effect.runVerifyScript]⟩
  else
    ⟨MainOutcome.needCredential w.userCwd,
     out ++ prompt_for_api_key w.userCwd, acts5⟩

/-- Embedding of `main`: the sequential provisioning routine of
`auto_init.py`, threading the venv interpreter path from step 1 onward and
accumulating emitted lines and performed actions. -/
def mainRun (w : World) : RunResult :=
  let header := ["Skill directory: " ++ w.skillDir,
                 "Working directory: " ++ w.userCwd, ""]
  let ev := ensure_venv w
  match ev.1 with
  | VenvResult.noPython =>
    ⟨MainOutcome.fatalNoPython, header ++ ev.2.1, ev.2.2⟩
  | VenvResult.createFailed =>
    ⟨MainOutcome.fatalVenvCreate, header ++ ev.2.1, ev.2.2⟩
  | VenvResult.ok pythonExe =>
    let out12 := header ++ ev.2.1 ++ (upgrade_pip w.pipUpgradeOk).2
    let actsSdk := ev.2.2 ++ [Effect.upgradePipCall, Effect.probeSdkImport]
    if is_sdk_installed w.sdkImport then
      mainAfterInstall w pythonExe out12 actsSdk
    else
      let inst := install_sdk w.sdkInstallOk
      match inst.1 with
      | Except.error _ =>
        ⟨MainOutcome.fatalSdkInstall, out12 ++ inst.2,
         actsSdk ++ [Effect.installSdkCall]⟩
      | Except.ok _ =>
        mainAfterInstall w pythonExe (out12 ++ inst.2)
          (actsSdk ++ [Effect.installSdkCall])

/-- Probe environment in which no external interpreter invocation completes. -/
def baseProbe : String → ProbeResult := fun _ => none

/-- Concrete world for evaluation: valid venv, installed SDK, valid key,
passing verification. -/
def wSuccess : World :=
  { skillDir := "/skill", userCwd := "/work", venvExists := true,
    probe := baseProbe, venvCreateOk := true, pipUpgradeOk := true,
    sdkImport := some ⟨0, "", ""⟩, sdkInstallOk := true,
    dotenvImport := some ⟨0, "", ""⟩, dotenvInstallOk := true,
    envFile := some ["CARVER_API_KEY=secret123"],
    verifyResult := some ⟨0, "SUCCESS: Connected! Found 3 topics", ""⟩ }

/-- Concrete world with no credential file. -/
def wNeedKey : World :=
  { wSuccess with envFile := none }

/-- Concrete world whose verification subprocess fails with stderr output. -/
def wVerifyFail : World :=
  { wSuccess with verifyResult := some ⟨1, "", "Traceback: connection refused"⟩ }

/-- Concrete world where the venv must be created and creation fails. -/
def wCreateFail : World :=
  { wSuccess with
    venvExists := false,
    venvCreateOk := false,
    probe := fun c => if c = "python3.12" then some ⟨0, "Python 3.12.4", ""⟩ else none }

/-- Concrete world where the SDK import probe and its install both fail. -/
def wSdkFail : World :=
  { wSuccess with sdkImport := some ⟨1, "", ""⟩, sdkInstallOk := false }

/-! Helper lemmas. -/

theorem find_cons_skip (c : String) (p : ProbeResult)
    (rest : List (String × ProbeResult)) (h : acceptable p = false) :
    find_compatible_python ((c, p) :: rest) = find_compatible_python rest := by
  cases p with
  | none => simp [find_compatible_python]
  | some r =>
    by_cases hr : r.returncode = 0
    · simp only [acceptable, hr, if_true] at h
      simp [find_compatible_python, hr, h]
    · simp [find_compatible_python, hr]

theorem find_append_skip (pre rest : List (String × ProbeResult))
    (h : ∀ p ∈ pre, acceptable p.2 = false) :
    find_compatible_python (pre ++ rest) = find_compatible_python rest := by
  induction pre with
  | nil => rfl
  | cons hd tl ih =>
    obtain ⟨c, p⟩ := hd
    rw [List.cons_append, find_cons_skip c p _ (h (c, p) (List.mem_cons_self _ tl))]
    exact ih (fun q hq => h q (List.mem_cons_of_mem _ hq))

theorem find_cons_accept (c : String) (r : SubprocResult)
    (rest : List (String × ProbeResult)) (h : acceptable (some r) = true) :
    find_compatible_python ((c, some r) :: rest) = some (c, pyStrip r.stdout) := by
  by_cases hr : r.returncode = 0
  · simp only [acceptable, hr, if_true] at h
    simp [find_compatible_python, hr, h]
  · simp [acceptable, hr] at h

theorem mem_probeTrace (a : Effect) (l : List (String × ProbeResult))
    (h : a ∈ probeTrace l) : ∃ c, a = Effect.probeVersion c := by
  induction l with
  | nil => simp [probeTrace] at h
  | cons hd tl ih =>
    simp only [probeTrace] at h
    rcases List.mem_cons.mp h with h1 | h2
    · exact ⟨hd.1, h1⟩
    · by_cases hacc : acceptable hd.2
      · simp [hacc] at h2
      · exact ih (by simpa [hacc] using h2)

theorem mem_dotenvActions (a : Effect) (p : ProbeResult) (h : a ∈ dotenvActions p) :
    a = Effect.probeDotenvImport ∨ a = Effect.installDotenvCall := by
  cases p with
  | none => simp [dotenvActions] at h; exact Or.inl h
  | some r =>
    by_cases hr : (r.returncode == 0) = true
    · simp [dotenvActions, hr] at h; exact Or.inl h
    · simp [dotenvActions, hr] at h; exact h

theorem mem_envFileActions (a : Effect) (cwd : String) (f : Option (List String))
    (h : a ∈ envFileActions cwd f) :
    a = Effect.statEnvFile (cwd ++ "/.env") ∨ a = Effect.readEnvFile (cwd ++ "/.env") := by
  cases f with
  | none => simp [envFileActions] at h; exact Or.inl h
  | some lines => simpa [envFileActions] using h

/-- Outcome of `mainRun` as a function of the gating conditions alone. -/
theorem mainRun_outcome (w : World) :
    (mainRun w).outcome =
      match (ensure_venv w).1 with
      | VenvResult.noPython => MainOutcome.fatalNoPython
      | VenvResult.createFailed => MainOutcome.fatalVenvCreate
      | VenvResult.ok p =>
        if is_sdk_installed w.sdkImport = false ∧ w.sdkInstallOk = false then
          MainOutcome.fatalSdkInstall
        else if (check_env_file w.envFile).1 = true then
          if (test_sdk_connection w.verifyResult).1 = true then
            MainOutcome.success p w.userCwd
          else MainOutcome.fatalVerify
        else MainOutcome.needCredential w.userCwd := by
  unfold mainRun mainAfterInstall
  cases hv : (ensure_venv w).1 with
  | noPython => simp [hv]
  | createFailed => simp [hv]
  | ok p =>
    cases hs : is_sdk_installed w.sdkImport with
    | true =>
      cases hk : (check_env_file w.envFile).1 with
      | true =>
        cases ht : (test_sdk_connection w.verifyResult).1 <;> simp [hv, hs, hk, ht]
      | false => simp [hv, hs, hk]
    | false =>
      cases hi : w.sdkInstallOk with
      | true =>
        cases hk : (check_env_file w.envFile).1 with
        | true =>
          cases ht : (test_sdk_connection w.verifyResult).1 <;>
            simp [hv, hs, install_sdk, hi, hk, ht]
        | false => simp [hv, hs, install_sdk, hi, hk]
      | false => simp [hv, hs, install_sdk, hi]

theorem checkLines_eq_findSome (lines : List String) :
    checkLines lines = ((lines.findSome? lineKey).isSome, lines.findSome? lineKey) := by
  induction lines with
  | nil => simp [checkLines, List.findSome?]
  | cons line rest ih =>
    by_cases h1 : pyStartsWith (pyStrip line) "CARVER_API_KEY=" = true
    · by_cases h2 : (pyStrip (afterFirstEq line) != "" &&
        pyStrip (afterFirstEq line) != "your_api_key_here") = true
      · simp [checkLines, lineKey, h1, h2, List.findSome?_cons]
      · simp [checkLines, lineKey, h1, h2, List.findSome?_cons, ih]
    · simp [checkLines, lineKey, h1, List.findSome?_cons, ih]

/-- C10: `check_env_file` scans the credential file line by line and returns
the key of the first line (in file order) whose stripped text starts with
`CARVER_API_KEY=` and whose stripped value after the first `=` is non-empty
and not the placeholder; lines with an empty or placeholder value are
skipped rather than ending the scan, so a placeholder line before a valid
key line does not hide the valid key, and the value is taken after the
first `=` only, preserving `=` characters inside values. -/
theorem check_env_file_scan_semantics :
    (∀ lines : List String,
      check_env_file (some lines) =
        ((lines.findSome? lineKey).isSome, lines.findSome? lineKey)) ∧
    lineKey "CARVER_API_KEY=your_api_key_here" = none ∧
    lineKey "CARVER_API_KEY= " = none ∧
    lineKey " CARVER_API_KEY=abc=def " = some "abc=def" ∧
    check_env_file (some ["CARVER_API_KEY=your_api_key_here", "CARVER_API_KEY=realkey"]) =
      (true, some "realkey") := by
  refine ⟨fun lines => checkLines_eq_findSome lines, by decide, by decide, by decide, by decide⟩

/-- C9: the version-acceptance test of `find_compatible_python` is plain
substring containment, so a version output outside the accepted set such as
`Python 3.100.0` is accepted through its `Python 3.10` substring, and a
candidate reporting it is selected. -/
theorem version_check_substring_overmatch :
    versionAccepted "Python 3.100.0" = true ∧
    find_compatible_python [("python3", some ⟨0, "Python 3.100.0", ""⟩)] =
      some ("python3", "Python 3.100.0") := by decide

/-- C5: interpreter selection is first-match: whenever every candidate of a
prefix is unacceptable (raised, timed out, non-zero exit, or version string
outside the accepted set) and the next candidate completes with exit zero
and an accepted version string, that candidate and its stripped version
output are returned, whatever comes later; and a list with no acceptable
candidate yields `none`. -/
theorem find_compatible_python_first_match :
    (∀ (pre : List (String × ProbeResult)) (c : String) (r : SubprocResult)
        (rest : List (String × ProbeResult)),
      (∀ p ∈ pre, acceptable p.2 = false) → acceptable (some r) = true →
      find_compatible_python (pre ++ (c, some r) :: rest) =
        some (c, pyStrip r.stdout)) ∧
    (∀ l : List (String × ProbeResult),
      (∀ p ∈ l, acceptable p.2 = false) → find_compatible_python l = none) := by
  constructor
  · intro pre c r rest hpre hr
    rw [find_append_skip pre _ hpre, find_cons_accept c r rest hr]
  · intro l hl
    have h := find_append_skip l [] hl
    simpa using h

/-- Closed instance of the first-match theorem: with an earlier candidate
that raised and a later acceptable candidate, the middle candidate wins, and
an all-unacceptable list yields `none`. -/
theorem find_compatible_python_first_match_witness :
    find_compatible_python
      [("python3.12", none),
       ("python3.11", some ⟨0, "Python 3.11.9", ""⟩),
       ("python3.10", some ⟨0, "Python 3.10.2", ""⟩)] =
      some ("python3.11", "Python 3.11.9") ∧
    find_compatible_python [("python3", some ⟨1, "Python 3.12.0", ""⟩)] = none := by
  constructor
  · have h := find_compatible_python_first_match.1 [("python3.12", none)]
      "python3.11" ⟨0, "Python 3.11.9", ""⟩ [("python3.10", some ⟨0, "Python 3.10.2", ""⟩)]
      (by decide) (by decide)
    have h2 : pyStrip "Python 3.11.9" = "Python 3.11.9" := by decide
    rw [h2] at h
    simpa using h
  · exact find_compatible_python_first_match.2 _ (by decide)

/-- C1: `main` terminates with exit status 0, 1 or 2; status 0 holds exactly
when every gating step succeeds through end-to-end verification, status 2
exactly on the `NEED_CREDENTIAL` outcome, which occurs only when
`check_env_file` reports no valid key, and status 1 exactly on the fatal
outcomes; the credential-missing status is distinct from both others. -/
theorem main_exit_status_classification (w : World) :
    (exitCode (mainRun w).outcome = 0 ∨ exitCode (mainRun w).outcome = 1 ∨
      exitCode (mainRun w).outcome = 2) ∧
    (exitCode (mainRun w).outcome = 0 ↔
      ∃ p, (ensure_venv w).1 = VenvResult.ok p ∧
        (is_sdk_installed w.sdkImport = true ∨ w.sdkInstallOk = true) ∧
        (check_env_file w.envFile).1 = true ∧
        (test_sdk_connection w.verifyResult).1 = true ∧
        (mainRun w).outcome = MainOutcome.success p w.userCwd) ∧
    (exitCode (mainRun w).outcome = 2 ↔
      (mainRun w).outcome = MainOutcome.needCredential w.userCwd) ∧
    ((mainRun w).outcome = MainOutcome.needCredential w.userCwd →
      (check_env_file w.envFile).1 = false) ∧
    (exitCode (mainRun w).outcome = 1 ↔
      ((mainRun w).outcome = MainOutcome.fatalNoPython ∨
       (mainRun w).outcome = MainOutcome.fatalVenvCreate ∨
       (mainRun w).outcome = MainOutcome.fatalSdkInstall ∨
       (mainRun w).outcome = MainOutcome.fatalVerify)) := by
  rw [mainRun_outcome w]
  cases hv : (ensure_venv w).1 with
  | noPython => simp [exitCode]
  | createFailed => simp [exitCode]
  | ok p =>
    by_cases hs : is_sdk_installed w.sdkImport = false ∧ w.sdkInstallOk = false
    · have hs2 : ¬ (is_sdk_installed w.sdkImport = true ∨ w.sdkInstallOk = true) := by
        rcases hs with ⟨h1, h2⟩
        simp [h1, h2]
      simp [hs, exitCode, hs2]
    · have hs2 : is_sdk_installed w.sdkImport = true ∨ w.sdkInstallOk = true := by
        rcases not_and_or.mp hs with h | h
        · exact Or.inl (by simpa using h)
        · exact Or.inr (by simpa using h)
      cases hk : (check_env_file w.envFile).1 with
      | false => simp [hs, hk, exitCode]
      | true =>
        cases ht : (test_sdk_connection w.verifyResult).1 with
        | true => simp [hs, hk, ht, exitCode, hs2]
        | false => simp [hs, hk, ht, exitCode]

/-- Closed instance of the exit-status classification: a run with no
credential file reaches the dedicated status 2 with no valid key reported. -/
theorem main_exit_status_classification_witness :
    exitCode (mainRun wNeedKey).outcome = 2 ∧
    (check_env_file wNeedKey.envFile).1 = false := by
  have h := main_exit_status_classification wNeedKey
  have h2 : (mainRun wNeedKey).outcome = MainOutcome.needCredential wNeedKey.userCwd := by
    decide
  exact ⟨h.2.2.1.mpr h2, h.2.2.2.1 h2⟩

/-- C2: a credential file whose only line is the placeholder
`CARVER_API_KEY=your_api_key_here` yields the same `check_env_file` result
as a missing file, and `main` reaches the same outcome in both worlds; when
step 5 is reached at all with no valid key the outcome is the dedicated
`NEED_CREDENTIAL` exit with status 2. -/
theorem placeholder_treated_as_missing (w : World) :
    check_env_file (some ["CARVER_API_KEY=your_api_key_here"]) = check_env_file none ∧
    check_env_file none = (false, none) ∧
    (mainRun { w with envFile := some ["CARVER_API_KEY=your_api_key_here"] }).outcome =
      (mainRun { w with envFile := none }).outcome ∧
    ((mainRun { w with envFile := none }).outcome =
        MainOutcome.needCredential w.userCwd ∨
      (mainRun { w with envFile := none }).outcome = MainOutcome.fatalNoPython ∨
      (mainRun { w with envFile := none }).outcome = MainOutcome.fatalVenvCreate ∨
      (mainRun { w with envFile := none }).outcome = MainOutcome.fatalSdkInstall) ∧
    exitCode (MainOutcome.needCredential w.userCwd) = 2 := by
  refine ⟨by decide, rfl, ?_, ?_, rfl⟩
  · rw [mainRun_outcome, mainRun_outcome]
    rfl
  · rw [mainRun_outcome]
    cases hv : (ensure_venv { w with envFile := none }).1 with
    | noPython => simp
    | createFailed => simp
    | ok p =>
      by_cases hs : is_sdk_installed w.sdkImport = false ∧ w.sdkInstallOk = false
      · simp [hs]
      · simp [hs, check_env_file]

theorem ensure_venv_actions_spec (w : World) (a : Effect)
    (h : a ∈ (ensure_venv w).2.2) :
    (∃ c, a = Effect.probeVersion c) ∨ ∃ vp, a = Effect.createVenv vp := by
  unfold ensure_venv at h
  by_cases hw : w.venvExists = true
  · simp [hw] at h
  · simp only [hw, Bool.false_eq_true, if_false] at h
    cases hf : find_compatible_python (candidates.map fun c => (c, w.probe c)) with
    | none =>
      rw [hf] at h
      simp only at h
      exact Or.inl (mem_probeTrace a _ h)
    | some pr =>
      rw [hf] at h
      by_cases hc : w.venvCreateOk = true
      · simp only [hc, if_true, List.mem_append, List.mem_singleton] at h
        rcases h with h | h
        · exact Or.inl (mem_probeTrace a _ h)
        · exact Or.inr ⟨_, h⟩
      · simp only [hc, Bool.false_eq_true, if_false, List.mem_append,
          List.mem_singleton] at h
        rcases h with h | h
        · exact Or.inl (mem_probeTrace a _ h)
        · exact Or.inr ⟨_, h⟩

theorem mainRun_actions_spec (w : World) (a : Effect) (h : a ∈ (mainRun w).actions) :
    a ∈ (ensure_venv w).2.2 ∨ a = Effect.upgradePipCall ∨ a = Effect.probeSdkImport ∨
    (a = Effect.installSdkCall ∧ is_sdk_installed w.sdkImport = false) ∨
    a ∈ dotenvActions w.dotenvImport ∨ a ∈ envFileActions w.userCwd w.envFile ∨
    a = Effect.runVerifyScript := by
  simp only [mainRun, mainAfterInstall] at h
  cases hv : (ensure_venv w).1 with
  | noPython => rw [hv] at h; simp only at h; exact Or.inl h
  | createFailed => rw [hv] at h; simp only at h; exact Or.inl h
  | ok p =>
    rw [hv] at h
    cases hs : is_sdk_installed w.sdkImport with
    | true =>
      simp only [hs, if_true] at h
      by_cases hk : (check_env_file w.envFile).1 = true
      · by_cases ht : (test_sdk_connection w.verifyResult).1 = true
        · simp [hk, ht, List.mem_append] at h
          tauto
        · simp [hk, ht, List.mem_append] at h
          tauto
      · simp [hk, List.mem_append] at h
        tauto
    | false =>
      cases hi : w.sdkInstallOk with
      | false =>
        simp [hs, install_sdk, hi, List.mem_append] at h
        tauto
      | true =>
        simp only [hs, install_sdk, hi, Bool.false_eq_true, if_false, if_true] at h
        by_cases hk : (check_env_file w.envFile).1 = true
        · by_cases ht : (test_sdk_connection w.verifyResult).1 = true
          · simp [hk, ht, List.mem_append] at h
            tauto
          · simp [hk, ht, List.mem_append] at h
            tauto
        · simp [hk, List.mem_append] at h
          tauto

/-- C8: frame property on the credential file: no run of the provisioner
ever performs a write of the working-directory credential file; the only
operations touching it are the existence check and the read performed by
`check_env_file`. -/
theorem credential_file_never_written (w : World) (path : String)
    (contents : List String) :
    Effect.writeEnvFile path contents ∉ (mainRun w).actions := by
  intro hmem
  rcases mainRun_actions_spec w _ hmem with h | h | h | h | h | h | h
  · rcases ensure_venv_actions_spec w _ h with ⟨c, hc⟩ | ⟨vp, hvp⟩
    · exact Effect.noConfusion hc
    · exact Effect.noConfusion hvp
  · exact Effect.noConfusion h
  · exact Effect.noConfusion h
  · exact Effect.noConfusion h.1
  · rcases mem_dotenvActions _ _ h with h | h <;> exact Effect.noConfusion h
  · rcases mem_envFileActions _ _ _ h with h | h <;> exact Effect.noConfusion h
  · exact Effect.noConfusion h

/-- C4: provisioning is idempotent: when the venv directory already exists,
`ensure_venv` returns the interpreter path inside it with no output and no
effects — in particular the whole run performs no interpreter probe and no
venv construction — and when the SDK import probe succeeds, the run performs
no SDK installation. -/
theorem provisioning_idempotent (w : World) :
    (w.venvExists = true →
      ensure_venv w =
        (VenvResult.ok (get_venv_python (w.skillDir ++ "/.venv")), [], []) ∧
      (∀ c, Effect.probeVersion c ∉ (mainRun w).actions) ∧
      (∀ vp, Effect.createVenv vp ∉ (mainRun w).actions)) ∧
    (is_sdk_installed w.sdkImport = true →
      Effect.installSdkCall ∉ (mainRun w).actions) := by
  constructor
  · intro hw
    have he : ensure_venv w =
        (VenvResult.ok (get_venv_python (w.skillDir ++ "/.venv")), [], []) := by
      unfold ensure_venv
      simp [hw]
    refine ⟨he, ?_, ?_⟩
    · intro c hmem
      rcases mainRun_actions_spec w _ hmem with h | h | h | h | h | h | h
      · rw [he] at h
        simp at h
      · exact Effect.noConfusion h
      · exact Effect.noConfusion h
      · exact Effect.noConfusion h.1
      · rcases mem_dotenvActions _ _ h with h | h <;> exact Effect.noConfusion h
      · rcases mem_envFileActions _ _ _ h with h | h <;> exact Effect.noConfusion h
      · exact Effect.noConfusion h
    · intro vp hmem
      rcases mainRun_actions_spec w _ hmem with h | h | h | h | h | h | h
      · rw [he] at h
        simp at h
      · exact Effect.noConfusion h
      · exact Effect.noConfusion h
      · exact Effect.noConfusion h.1
      · rcases mem_dotenvActions _ _ h with h | h <;> exact Effect.noConfusion h
      · rcases mem_envFileActions _ _ _ h with h | h <;> exact Effect.noConfusion h
      · exact Effect.noConfusion h
  · intro hs hmem
    rcases mainRun_actions_spec w _ hmem with h | h | h | h | h | h | h
    · rcases ensure_venv_actions_spec w _ h with ⟨c, hc⟩ | ⟨vp, hvp⟩
      · exact Effect.noConfusion hc
      · exact Effect.noConfusion hvp
    · exact Effect.noConfusion h
    · exact Effect.noConfusion h
    · rw [hs] at h
      exact Bool.noConfusion h.2
    · rcases mem_dotenvActions _ _ h with h | h <;> exact Effect.noConfusion h
    · rcases mem_envFileActions _ _ _ h with h | h <;> exact Effect.noConfusion h
    · exact Effect.noConfusion h

/-- Closed instance of the idempotence theorem at a world with an existing
venv and an installed SDK. -/
theorem provisioning_idempotent_witness :
    ensure_venv wSuccess =
      (VenvResult.ok (get_venv_python (wSuccess.skillDir ++ "/.venv")), [], []) ∧
    Effect.probeVersion "python3.12" ∉ (mainRun wSuccess).actions ∧
    Effect.createVenv "/skill/.venv" ∉ (mainRun wSuccess).actions ∧
    Effect.installSdkCall ∉ (mainRun wSuccess).actions := by
  have h := provisioning_idempotent wSuccess
  have h1 := h.1 rfl
  exact ⟨h1.1, h1.2.1 _, h1.2.2 _, h.2 (by decide)⟩

/-- C7: the pip upgrade and the python-dotenv helper install are non-fatal —
the outcome of `main` is unchanged by any outcome of those two steps, and a
failed pip upgrade only returns `false` with a warning line — whereas a
failure of venv construction or of SDK installation terminates the run with
a fatal outcome of exit status 1. -/
theorem optional_steps_nonfatal_gating_fatal (w : World) :
    (∀ (b : Bool) (d : ProbeResult) (i : Bool),
      (mainRun { w with
        pipUpgradeOk := b, dotenvImport := d, dotenvInstallOk := i }).outcome =
        (mainRun w).outcome) ∧
    upgrade_pip false =
      (false, ["Upgrading pip...", "WARNING: Could not upgrade pip: <exception>"]) ∧
    (w.venvExists = false → w.venvCreateOk = false →
      (∃ pr, find_compatible_python
        (candidates.map (fun c => (c, w.probe c))) = some pr) →
      (mainRun w).outcome = MainOutcome.fatalVenvCreate ∧
        exitCode (mainRun w).outcome = 1) ∧
    (∀ p, (ensure_venv w).1 = VenvResult.ok p →
      is_sdk_installed w.sdkImport = false → w.sdkInstallOk = false →
      (mainRun w).outcome = MainOutcome.fatalSdkInstall ∧
        exitCode (mainRun w).outcome = 1) := by
  refine ⟨?_, rfl, ?_, ?_⟩
  · intro b d i
    rw [mainRun_outcome, mainRun_outcome]
    rfl
  · intro hw hc ⟨pr, hf⟩
    have he : (ensure_venv w).1 = VenvResult.createFailed := by
      simp only [ensure_venv, hw, Bool.false_eq_true, if_false]
      rw [hf]
      simp [hc]
    rw [mainRun_outcome, he]
    exact ⟨rfl, rfl⟩
  · intro p hok hs hi
    rw [mainRun_outcome, hok]
    simp [hs, hi, exitCode]

/-- Closed instance of the step-classification theorem: failing both
optional steps leaves the outcome of a successful run unchanged, while a
failing venv construction and a failing SDK install each exit fatally. -/
theorem optional_steps_nonfatal_gating_fatal_witness :
    (mainRun { wSuccess with
      pipUpgradeOk := false, dotenvImport := none, dotenvInstallOk := false }).outcome =
      (mainRun wSuccess).outcome ∧
    (mainRun wCreateFail).outcome = MainOutcome.fatalVenvCreate ∧
    exitCode (mainRun wCreateFail).outcome = 1 ∧
    (mainRun wSdkFail).outcome = MainOutcome.fatalSdkInstall ∧
    exitCode (mainRun wSdkFail).outcome = 1 := by
  have h1 := (optional_steps_nonfatal_gating_fatal wSuccess).1 false none false
  have h2 := (optional_steps_nonfatal_gating_fatal wCreateFail).2.2.1 rfl rfl
    ⟨("python3.12", "Python 3.12.4"), by decide⟩
  have h3 := (optional_steps_nonfatal_gating_fatal wSdkFail).2.2.2
    "/skill/.venv/bin/python" (by decide) (by decide) rfl
  exact ⟨h1, h2.1, h2.2, h3.1, h3.2⟩

/-- C6: end-to-end verification succeeds exactly when the verification
subprocess completed with exit status zero and its standard output contains
the `SUCCESS` marker substring; on any other outcome `test_sdk_connection`
reports failure forwarding the subprocess stderr (and its stdout when that
stdout carries an ERROR diagnostic) in its printed diagnostics, and
`main`, whenever it reaches verification with a failing test, terminates
with the fatal outcome of exit status 1. -/
theorem verification_marker_iff (w : World) :
    ((test_sdk_connection w.verifyResult).1 = true ↔
      ∃ r, w.verifyResult = some r ∧ r.returncode = 0 ∧
        strContains r.stdout "SUCCESS" = true) ∧
    (∀ r, w.verifyResult = some r →
      (test_sdk_connection w.verifyResult).1 = false → r.stderr ≠ "" →
      ("  " ++ r.stderr) ∈ (test_sdk_connection w.verifyResult).2) ∧
    (∀ r, w.verifyResult = some r →
      (test_sdk_connection w.verifyResult).1 = false → r.stdout ≠ "" →
      strContains r.stdout "ERROR" = true →
      ("  " ++ r.stdout) ∈ (test_sdk_connection w.verifyResult).2) ∧
    ((mainRun w).outcome = MainOutcome.fatalVerify →
      exitCode (mainRun w).outcome = 1 ∧
      (test_sdk_connection w.verifyResult).1 = false) ∧
    (∀ p, (ensure_venv w).1 = VenvResult.ok p →
      (is_sdk_installed w.sdkImport = true ∨ w.sdkInstallOk = true) →
      (check_env_file w.envFile).1 = true →
      (test_sdk_connection w.verifyResult).1 = false →
      (mainRun w).outcome = MainOutcome.fatalVerify) := by
  refine ⟨?_, ?_, ?_, ?_, ?_⟩
  · cases hr : w.verifyResult with
    | none => simp [test_sdk_connection]
    | some r =>
      by_cases h0 : r.returncode = 0
      · by_cases hS : strContains r.stdout "SUCCESS" = true
        · simp [test_sdk_connection, h0, hS]
        · simp [test_sdk_connection, h0, hS]
      · simp [test_sdk_connection, h0]
  · intro r hr hfail hstderr
    rw [hr] at hfail ⊢
    by_cases h0 : r.returncode = 0
    · by_cases hS : strContains r.stdout "SUCCESS" = true
      · simp [test_sdk_connection, h0, hS] at hfail
      · simp [test_sdk_connection, h0, hS, hstderr]
    · simp [test_sdk_connection, h0, hstderr]
  · intro r hr hfail hstdout hErr
    rw [hr] at hfail ⊢
    by_cases h0 : r.returncode = 0
    · by_cases hS : strContains r.stdout "SUCCESS" = true
      · simp [test_sdk_connection, h0, hS] at hfail
      · simp [test_sdk_connection, h0, hS, hstdout, hErr]
    · simp [test_sdk_connection, h0, hstdout, hErr]
  · rw [mainRun_outcome]
    cases hv : (ensure_venv w).1 with
    | noPython => simp
    | createFailed => simp
    | ok p =>
      by_cases hs : is_sdk_installed w.sdkImport = false ∧ w.sdkInstallOk = false
      · simp [hs]
      · cases hk : (check_env_file w.envFile).1 with
        | false => simp [hs, hk]
        | true =>
          cases ht : (test_sdk_connection w.verifyResult).1 with
          | true => simp [hs, hk, ht]
          | false => simp [hs, hk, ht, exitCode]
  · intro p hok hpass hk ht
    have hs : ¬ (is_sdk_installed w.sdkImport = false ∧ w.sdkInstallOk = false) := by
      rcases hpass with h | h <;> simp [h]
    rw [mainRun_outcome, hok]
    simp [hs, hk, ht]

/-- Closed instance of the verification theorem at a world whose
verification subprocess exits 1 with stderr text: the run ends in the fatal
verification outcome with status 1 and the stderr is forwarded. -/
theorem verification_marker_iff_witness :
    (mainRun wVerifyFail).outcome = MainOutcome.fatalVerify ∧
    exitCode (mainRun wVerifyFail).outcome = 1 ∧
    ("  Traceback: connection refused") ∈
      (test_sdk_connection wVerifyFail.verifyResult).2 := by
  have h := verification_marker_iff wVerifyFail
  have hout := h.2.2.2.2 "/skill/.venv/bin/python" (by decide) (Or.inl (by decide))
    (by decide) (by decide)
  have hexit := (h.2.2.2.1 hout).1
  have hfwd := h.2.1 ⟨1, "", "Traceback: connection refused"⟩ rfl (by decide)
    (by decide)
  exact ⟨hout, hexit, hfwd⟩

theorem exists_pre_cons (a : String) (t : List String) (x y : String)
    (h : ∃ q, t = q ++ [x, y]) : ∃ pre, a :: t = pre ++ [x, y] := by
  rcases h with ⟨q, rfl⟩
  exact ⟨a :: q, rfl⟩

theorem exists_pre_append (l t : List String) (x y : String)
    (h : ∃ q, t = q ++ [x, y]) : ∃ pre, l ++ t = pre ++ [x, y] := by
  rcases h with ⟨q, rfl⟩
  exact ⟨l ++ q, by simp⟩

theorem prompt_for_api_key_suffix (c : String) :
    prompt_for_api_key c =
      (["", sixtyEq, "CARVER API KEY REQUIRED", sixtyEq, "",
        "The Carver Feeds SDK requires an API key to function.", "",
        "To get your API key:", "1. Visit: https://app.carveragents.ai",
        "2. Sign in or create an account", "3. Copy your API key", "",
        "Please provide your Carver API key to continue.", "",
        "(The key will be saved to " ++ c ++ "/.env)", sixtyEq, ""]) ++
      ["API_KEY_REQUIRED", "CWD=" ++ c] := rfl

/-- C3: structured stdout contract: on the success outcome the emitted lines
end with the machine-readable interpreter line `VENV_PYTHON=...` followed by
the final `CWD=...` line before exit 0; on the missing-credential outcome
the lines emitted by `prompt_for_api_key` end with the bare marker
`API_KEY_REQUIRED` followed by the `CWD=...` line before exit 2. -/
theorem structured_stdout_contract (w : World) :
    (∀ p, (mainRun w).outcome = MainOutcome.success p w.userCwd →
      exitCode (mainRun w).outcome = 0 ∧
      ∃ pre, (mainRun w).stdout = pre ++ ["VENV_PYTHON=" ++ p, "CWD=" ++ w.userCwd]) ∧
    ((mainRun w).outcome = MainOutcome.needCredential w.userCwd →
      exitCode (mainRun w).outcome = 2 ∧
      ∃ pre, (mainRun w).stdout = pre ++ ["API_KEY_REQUIRED", "CWD=" ++ w.userCwd]) ∧
    (∀ c, ∃ pre, prompt_for_api_key c = pre ++ ["API_KEY_REQUIRED", "CWD=" ++ c]) := by
  refine ⟨?_, ?_, fun c => ⟨_, prompt_for_api_key_suffix c⟩⟩
  · intro p hsucc
    simp only [mainRun, mainAfterInstall] at hsucc ⊢
    cases hv : (ensure_venv w).1 with
    | noPython => rw [hv] at hsucc; simp at hsucc
    | createFailed => rw [hv] at hsucc; simp at hsucc
    | ok q =>
      rw [hv] at hsucc
      cases hs : is_sdk_installed w.sdkImport with
      | true =>
        simp only [hs, if_true] at hsucc ⊢
        cases hk : (check_env_file w.envFile).1 with
        | false => simp [hk] at hsucc
        | true =>
          simp only [hk, if_true] at hsucc ⊢
          cases ht : (test_sdk_connection w.verifyResult).1 with
          | false => simp [ht] at hsucc
          | true =>
            simp only [ht, if_true] at hsucc ⊢
            simp only [MainOutcome.success.injEq] at hsucc
            obtain ⟨rfl, -⟩ := hsucc
            refine ⟨rfl, ?_⟩
            repeat
              first
              | exact ⟨[], rfl⟩
              | apply exists_pre_cons
              | apply exists_pre_append
      | false =>
        cases hi : w.sdkInstallOk with
        | false =>
          simp [hs, install_sdk, hi] at hsucc
        | true =>
          simp only [hs, install_sdk, hi, Bool.false_eq_true, if_false,
            if_true] at hsucc ⊢
          cases hk : (check_env_file w.envFile).1 with
          | false => simp [hk] at hsucc
          | true =>
            simp only [hk, if_true] at hsucc ⊢
            cases ht : (test_sdk_connection w.verifyResult).1 with
            | false => simp [ht] at hsucc
            | true =>
              simp only [ht, if_true] at hsucc ⊢
              simp only [MainOutcome.success.injEq] at hsucc
              obtain ⟨rfl, -⟩ := hsucc
              refine ⟨rfl, ?_⟩
              repeat
                first
                | exact ⟨[], rfl⟩
                | apply exists_pre_cons
                | apply exists_pre_append
  · intro hneed
    simp only [mainRun, mainAfterInstall] at hneed ⊢
    cases hv : (ensure_venv w).1 with
    | noPython => rw [hv] at hneed; simp at hneed
    | createFailed => rw [hv] at hneed; simp at hneed
    | ok q =>
      rw [hv] at hneed
      cases hs : is_sdk_installed w.sdkImport with
      | true =>
        simp only [hs, if_true] at hneed ⊢
        cases hk : (check_env_file w.envFile).1 with
        | true =>
          simp only [hk, if_true] at hneed
          cases ht : (test_sdk_connection w.verifyResult).1 with
          | false => simp [ht] at hneed
          | true => simp [ht] at hneed
        | false =>
          simp only [hk, Bool.false_eq_true, if_false] at hneed ⊢
          refine ⟨rfl, ?_⟩
          rw [prompt_for_api_key_suffix]
          repeat
            first
            | exact ⟨[], rfl⟩
            | apply exists_pre_cons
            | apply exists_pre_append
      | false =>
        cases hi : w.sdkInstallOk with
        | false => simp [hs, install_sdk, hi] at hneed
        | true =>
          simp only [hs, install_sdk, hi, Bool.false_eq_true, if_false,
            if_true] at hneed ⊢
          cases hk : (check_env_file w.envFile).1 with
          | true =>
            simp only [hk, if_true] at hneed
            cases ht : (test_sdk_connection w.verifyResult).1 with
            | false => simp [ht] at hneed
            | true => simp [ht] at hneed
          | false =>
            simp only [hk, Bool.false_eq_true, if_false] at hneed ⊢
            refine ⟨rfl, ?_⟩
            rw [prompt_for_api_key_suffix]
            repeat
              first
              | exact ⟨[], rfl⟩
              | apply exists_pre_cons
              | apply exists_pre_append

/-- Closed instances of the stdout contract: the success run ends its output
with the interpreter and working-directory lines, and the missing-credential
run ends with the marker and working-directory lines. -/
theorem structured_stdout_contract_witness :
    (exitCode (mainRun wSuccess).outcome = 0 ∧
      ∃ pre, (mainRun wSuccess).stdout =
        pre ++ ["VENV_PYTHON=/skill/.venv/bin/python", "CWD=/work"]) ∧
    (exitCode (mainRun wNeedKey).outcome = 2 ∧
      ∃ pre, (mainRun wNeedKey).stdout =
        pre ++ ["API_KEY_REQUIRED", "CWD=/work"]) := by
  constructor
  · have h := (structured_stdout_contract wSuccess).1 "/skill/.venv/bin/python"
      (by decide)
    have e1 : ("VENV_PYTHON=" ++ "/skill/.venv/bin/python") =
        "VENV_PYTHON=/skill/.venv/bin/python" := by decide
    have e2 : ("CWD=" ++ wSuccess.userCwd) = "CWD=/work" := by decide
    rw [e1, e2] at h
    exact h
  · have h := (structured_stdout_contract wNeedKey).2.1 (by decide)
    have e2 : ("CWD=" ++ wNeedKey.userCwd) = "CWD=/work" := by decide
    rw [e2] at h
    exact h

/-- Closed instance of the frame theorem: the successful run performs no
write of the credential file. -/
theorem credential_file_never_written_witness :
    Effect.writeEnvFile "/work/.env" ["CARVER_API_KEY=secret123"] ∉
      (mainRun wSuccess).actions :=
  credential_file_never_written wSuccess "/work/.env" ["CARVER_API_KEY=secret123"]
